import Mathlib

/-!
Shallow embedding of the TTL-cache core of the obsidian-email-wrangler
repository (src/utils/ttl.ts `AsyncTtl`, src/utils/deffered_parse.ts
`DefferedParse`, and the `Mailbox` tiered thread cache), together with
theorems settling the frozen claims about it.

Conventions of the embedding:
* JavaScript time (`Date.now()`) is an explicit `now : Nat` argument.
* `undefined`-able values are `Option`s; JavaScript truthiness of a
  `number | undefined` field is `truthyOpt` (undefined and 0 are falsy).
* The asynchronous fetch machinery is modelled operationally: a cell
  state records whether a fetch promise is in flight (`fetching`, holding
  the promise's identifier) and how many times the fetch closure has been
  invoked (`fetch_count`, the instrumentation counter the spec's test
  plan asks for; a freshly created promise is identified by the closure
  invocation that produced it).  Resolution and rejection of the pending
  promise are separate state transitions (`resolve_fetch`,
  `reject_fetch`) corresponding to the `.then`/`.finally` handlers
  installed by `_do_fetch`.
* `console.warn` calls are counted in `warn_count` (reported, not thrown).
-/

/-- JavaScript truthiness of a `number | undefined` value:
`undefined` and `0` are falsy, everything else truthy. -/
def truthyOpt : Option Nat → Bool
  | none => false
  | some n => n != 0

/-- The status record returned by `AsyncTtl._status` (ttl.ts `TtlStatus`). -/
structure TtlStatus where
  fresh : Bool
  fetch : Bool
deriving Repr, DecidableEq

/-- State of an `AsyncTtl<T>` cell (ttl.ts).  The TS private fields
`_max_age`, `_early_refresh`, `_stale_while_revalidate`, `_data`,
`_expiry`, `_data_valid` are carried directly; the `_fetch` closure is
external (its invocations are counted by `fetch_count`) and the
`_fetching : Promise<T> | undefined` field is carried as the identifier
of the pending promise, if any. -/
structure AsyncTtl (T : Type) where
  max_age : Nat
  early_refresh : Option Nat
  stale_while_revalidate : Option Nat
  data : Option T
  expiry : Option Nat
  data_valid : Option T → Bool
  fetching : Option Nat
  fetch_count : Nat
  warn_count : Nat

/-- Translation of `AsyncTtl._status` (ttl.ts lines 116-146), branch for
branch.  Note the source's early-refresh test compares the configured
lead `this._early_refresh` directly against the absolute clock `now`. -/
def AsyncTtl.status (c : AsyncTtl T) (now : Nat) : TtlStatus :=
  match c.expiry with
  | none => { fresh := false, fetch := true }
  | some expiry =>
    if c.data_valid c.data = false then { fresh := false, fetch := true }
    else
      let swr_branch : Option TtlStatus :=
        if truthyOpt c.stale_while_revalidate then
          let stale_while := expiry + c.stale_while_revalidate.getD 0
          if stale_while < now then some { fresh := false, fetch := true }
          else if expiry < now ∧ now ≤ stale_while then
            some { fresh := true, fetch := true }
          else none
        else none
      match swr_branch with
      | some st => st
      | none =>
        let er_branch : Option TtlStatus :=
          if truthyOpt c.early_refresh then
            if c.early_refresh.getD 0 ≤ now ∧ now ≤ expiry then
              some { fresh := true, fetch := true }
            else none
          else none
        match er_branch with
        | some st => st
        | none =>
          let fresh := decide (now ≤ expiry)
          { fresh := fresh, fetch := !fresh }

/-- Translation of `AsyncTtl.refresh_expiry` (ttl.ts lines 228-230). -/
def AsyncTtl.refresh_expiry (c : AsyncTtl T) (now : Nat) : AsyncTtl T :=
  { c with expiry := some (now + c.max_age) }

/-- Translation of `AsyncTtl.update` (ttl.ts lines 216-223): validate, store, refresh
expiry; returns whether an update happened. -/
def AsyncTtl.update (c : AsyncTtl T) (v : Option T) (now : Nat) :
    AsyncTtl T × Bool :=
  if c.data_valid v then (({ c with data := v } : AsyncTtl T).refresh_expiry now, true)
  else (c, false)

/-- Translation of `AsyncTtl._do_fetch` (ttl.ts lines 154-171), synchronous part: if no
fetch promise is in flight, invoke the fetch closure (counted) and
install the resulting promise; otherwise reuse the pending promise.
Returns the (current or newly initiated) promise's identifier. -/
def AsyncTtl.do_fetch (c : AsyncTtl T) : AsyncTtl T × Nat :=
  match c.fetching with
  | some p => (c, p)
  | none =>
    ({ c with fetching := some c.fetch_count, fetch_count := c.fetch_count + 1 },
     c.fetch_count)

/-- Resolution of the pending fetch promise with value `v` at time `now`:
the `.then` handler of `_do_fetch` runs `update`, warns on failure and
yields `this._data`; the `.finally` handler clears `_fetching`.  The
second component is the value the outer promise resolves with, delivered
to every holder of that promise. -/
def AsyncTtl.resolve_fetch (c : AsyncTtl T) (v : Option T) (now : Nat) :
    AsyncTtl T × Option T :=
  let r := c.update v now
  let c2 := if r.2 then r.1 else { r.1 with warn_count := r.1.warn_count + 1 }
  ({ c2 with fetching := none }, c2.data)

/-- Rejection of the pending fetch promise: the `.then` handler installs
no rejection handler, so the rejection passes through it, the `.finally`
handler clears `_fetching`, and the outer promise rejects — nothing else
of the state changes. -/
def AsyncTtl.reject_fetch (c : AsyncTtl T) : AsyncTtl T :=
  { c with fetching := none }

/-- Translation of `AsyncTtl.loaded` (ttl.ts lines 173-175). -/
def AsyncTtl.loaded (c : AsyncTtl T) : Bool :=
  c.expiry.isSome

/-- Translation of `AsyncTtl.invalidate` (ttl.ts lines 235-237): `this._expiry = 0`. -/
def AsyncTtl.invalidate (c : AsyncTtl T) : AsyncTtl T :=
  { c with expiry := some 0 }

/-- What a single `get_data` call hands its caller: either an immediate
resolution with the current `_data` (with, possibly, a `fetch_callback`
attached to a pending promise), or the pending fetch promise itself. -/
inductive CallerResult (T : Type) where
  | value (v : Option T) (attached : Option Nat)
  | waitOn (p : Nat)
deriving Repr, DecidableEq

/-- Translation of `AsyncTtl.get_data` (ttl.ts lines 182-201): consult `_status`; if a
fetch is due, start or join it (`_do_fetch`); if the data is not fresh,
resolve with the fetch promise, otherwise resolve immediately with the
current data. -/
def AsyncTtl.get_data (c : AsyncTtl T) (now : Nat) : AsyncTtl T × CallerResult T :=
  if (c.status now).fetch then
    if (c.status now).fresh then
      ((c.do_fetch).1, .value (c.do_fetch).1.data (some (c.do_fetch).2))
    else
      ((c.do_fetch).1, .waitOn (c.do_fetch).2)
  else (c, .value c.data none)

/-- A burst of `get_data` calls at the given times, all arriving before
any resolution or rejection event (the only transitions interleaved with
calls would be `resolve_fetch`/`reject_fetch`). -/
def AsyncTtl.get_data_many (c : AsyncTtl T) (ts : List Nat) :
    AsyncTtl T × List (CallerResult T) :=
  match ts with
  | [] => (c, [])
  | t :: rest =>
    let r := c.get_data t
    let more := r.1.get_data_many rest
    (more.1, r.2 :: more.2)

/-- Translation of `AsyncTtlParams<T>` (ttl.ts lines 5-26): the construction options.
The `fetch` closure is environmental; all other options are carried.
There is no stale-grace option among them. -/
structure AsyncTtlParams (T : Type) where
  max_age : Nat
  early_refresh : Option Nat := none
  validator : Option (Option T → Bool) := none
  pre_load : Option T := none

/-- The default `_data_valid`, TS `Boolean`: `undefined` is falsy, a
present value is as truthy as `truthy` says. -/
def defaultValid (truthy : T → Bool) : Option T → Bool
  | none => false
  | some v => truthy v

/-- The `AsyncTtl` constructor (ttl.ts lines 88-105): store the options
(`_stale_while_revalidate` is never assigned), install the validator if
given, and if `pre_load` is absent or fails `update`, eagerly start a
fetch. -/
def AsyncTtl.construct (truthy : T → Bool) (p : AsyncTtlParams T) (now : Nat) :
    AsyncTtl T :=
  let base : AsyncTtl T :=
    { max_age := p.max_age
      early_refresh := p.early_refresh
      stale_while_revalidate := none
      data := none
      expiry := none
      data_valid := p.validator.getD (defaultValid truthy)
      fetching := none
      fetch_count := 0
      warn_count := 0 }
  match p.pre_load with
  | none => base.do_fetch.1
  | some v =>
    let r := base.update (some v) now
    if r.2 then r.1 else r.1.do_fetch.1

/-- State of a `DefferedParse<StoredAs, ParsedTo>` holder
(deffered_parse.ts): raw input `_raw`, cached parse `_value`, the
`_parsed : boolean | undefined` flag and the parser function. -/
structure DefferedParse (S P : Type) where
  raw : Option S
  cached : Option P
  parsed : Option Bool
  parser : Option S → Option P

/-- The `value` setter (deffered_parse.ts lines 187-190):
`this._parsed = false; this._raw = raw`. -/
def DefferedParse.set_value (d : DefferedParse S P) (r : S) : DefferedParse S P :=
  { d with parsed := some false, raw := some r }

/-- The `value` getter (deffered_parse.ts lines 197-204): if `_parsed`
is not truthy (undefined or false), set it, compute `_value` from `_raw`
via the parser and discard `_raw`; return `_value`.  The third component
records whether the parser was invoked by this read. -/
def DefferedParse.get_value (d : DefferedParse S P) :
    DefferedParse S P × Option P × Bool :=
  if d.parsed = some true then (d, d.cached, false)
  else
    ({ d with parsed := some true, cached := d.parser d.raw, raw := none },
     d.parser d.raw, true)

/-- Translation of `has_value` (deffered_parse.ts lines 210-212): `this._parsed != undefined`. -/
def DefferedParse.has_value (d : DefferedParse S P) : Bool :=
  d.parsed != none

/-- The `DefferedParse` constructor (deffered_parse.ts lines 176-181):
store the parser; when raw input is supplied, route it through the
`value` setter. -/
def DefferedParse.construct (parser : Option S → Option P) (raw : Option S) :
    DefferedParse S P :=
  let base : DefferedParse S P :=
    { raw := none, cached := none, parsed := none, parser := parser }
  match raw with
  | none => base
  | some r => base.set_value r

/-- Iterated reads (`n` of them) of the `value` getter; returns the final
state, the values handed back and how many of the reads invoked the
parser. -/
def DefferedParse.get_value_many (d : DefferedParse S P) :
    Nat → DefferedParse S P × List (Option P) × Nat
  | 0 => (d, [], 0)
  | n + 1 =>
    let r := d.get_value
    let more := r.1.get_value_many n
    (more.1, r.2.1 :: more.2.1, (if r.2.2 then 1 else 0) + more.2.2)

/-- The `ThreadType` discriminator of thread.ts (`"Slim" | "Full"`). -/
inductive ThreadType where
  | Slim
  | Full
deriving Repr, DecidableEq

/-- A `MailThread` at the granularity the tiered cache inspects: its id
and its completeness tier (`isFull()` tests the discriminator). -/
structure MailThread where
  thread_type : ThreadType
  id : String
deriving Repr, DecidableEq

/-- Translation of `MailThread.isFull` (thread.ts lines 20-22). -/
def MailThread.isFull (t : MailThread) : Bool :=
  t.thread_type = ThreadType.Full

/-- A `TtlThread = AsyncTtl<MailThread>` cell as the `Mailbox` promotion
logic sees it: its configured max age, plus which tier and which thread
id its bound fetch closure targets. -/
structure TtlThread where
  max_age : Nat
  fetch_tier : ThreadType
  fetch_id : String
deriving Repr, DecidableEq

/-- Constant `thread_ttl = 15 * time_units.minute` (mailbox, line 31). -/
def thread_ttl : Nat := 15 * 60000

/-- Translation of `Mailbox.new_full_ttl` (mailbox lines 52-61): a new cell with
`max_age = thread_ttl` whose fetch closure gets the complete (full)
thread for `id`. -/
def Mailbox.new_full_ttl (id : String) : TtlThread :=
  { max_age := thread_ttl, fetch_tier := ThreadType.Full, fetch_id := id }

/-- Model of `LRUCache.get` at its boundary contract: keyed lookup. -/
def lru_get (m : List (String × TtlThread)) (k : String) : Option TtlThread :=
  match m with
  | [] => none
  | (k2, v) :: rest => if k2 = k then some v else lru_get rest k

/-- Model of `LRUCache.set` at its boundary contract: insert or replace under the
key.  Per lru-cache v10 (the pinned dependency), `set(k, undefined)`
acts as `delete(k)`. -/
def lru_set (m : List (String × TtlThread)) (k : String) (v : Option TtlThread) :
    List (String × TtlThread) :=
  match v with
  | none => m.filter (fun e => e.1 ≠ k)
  | some c => (k, c) :: m.filter (fun e => e.1 ≠ k)

/-- What `Mailbox.get_full` returns: the awaited cached thread (when the
cached cell already held a full thread), or the data of a newly
constructed cell. -/
inductive GetFullResult where
  | fromCached (t : MailThread)
  | fromNew (cell : TtlThread)
deriving Repr, DecidableEq

/-- Translation of `Mailbox.get_full` (mailbox lines 75-87).  `awaited` is the thread
the cached cell's `data` promise resolves to (consulted only when the
key is cached).  The source computes `new_ttl = new_full_ttl(id)` but
then executes `this.threads.set(id, cached)` — storing the old `cached`
binding, not `new_ttl` — and returns `new_ttl.data`. -/
def Mailbox.get_full (threads : List (String × TtlThread)) (id : String)
    (awaited : MailThread) : List (String × TtlThread) × GetFullResult :=
  let cached := lru_get threads id
  match cached with
  | some _cell =>
    if awaited.isFull then (threads, .fromCached awaited)
    else
      let new_ttl := Mailbox.new_full_ttl id
      (lru_set threads id cached, .fromNew new_ttl)
  | none =>
    let new_ttl := Mailbox.new_full_ttl id
    (lru_set threads id cached, .fromNew new_ttl)

/-! ## Helper lemmas -/

theorem AsyncTtl.do_fetch_pending {T : Type} {c : AsyncTtl T} {p : Nat}
    (h : c.fetching = some p) : c.do_fetch = (c, p) := by
  simp [AsyncTtl.do_fetch, h]

theorem AsyncTtl.do_fetch_idle {T : Type} {c : AsyncTtl T}
    (h : c.fetching = none) :
    c.do_fetch =
      ({ c with fetching := some c.fetch_count, fetch_count := c.fetch_count + 1 },
       c.fetch_count) := by
  simp [AsyncTtl.do_fetch, h]

theorem AsyncTtl.get_data_pending_fst {T : Type} {c : AsyncTtl T} {p : Nat}
    (h : c.fetching = some p) (now : Nat) : (c.get_data now).1 = c := by
  by_cases h1 : (c.status now).fetch = true <;>
    by_cases h2 : (c.status now).fresh = true <;>
      simp [AsyncTtl.get_data, AsyncTtl.do_fetch_pending h, h1, h2]

theorem AsyncTtl.get_data_pending_snd {T : Type} {c : AsyncTtl T} {p : Nat}
    (h : c.fetching = some p) (now : Nat) :
    (c.get_data now).2 = CallerResult.waitOn p ∨
    (c.get_data now).2 = CallerResult.value c.data (some p) ∨
    (c.get_data now).2 = CallerResult.value c.data none := by
  by_cases h1 : (c.status now).fetch = true <;>
    by_cases h2 : (c.status now).fresh = true <;>
      simp [AsyncTtl.get_data, AsyncTtl.do_fetch_pending h, h1, h2]

theorem AsyncTtl.get_data_many_pending {T : Type} {c : AsyncTtl T} {p : Nat}
    (h : c.fetching = some p) (ts : List Nat) :
    (c.get_data_many ts).1 = c ∧
    ∀ res ∈ (c.get_data_many ts).2,
      res = CallerResult.waitOn p ∨
      res = CallerResult.value c.data (some p) ∨
      res = CallerResult.value c.data none := by
  induction ts with
  | nil => simp [AsyncTtl.get_data_many]
  | cons t rest ih =>
    have h1 : (c.get_data t).1 = c := AsyncTtl.get_data_pending_fst h t
    have h2 := AsyncTtl.get_data_pending_snd h t
    refine ⟨?_, ?_⟩
    · show ((c.get_data t).1.get_data_many rest).1 = c
      rw [h1]; exact ih.1
    · intro res hres
      have : res = (c.get_data t).2 ∨ res ∈ ((c.get_data t).1.get_data_many rest).2 := by
        simpa [AsyncTtl.get_data_many] using hres
      rcases this with rfl | hmem
      · exact h2
      · rw [h1] at hmem
        exact ih.2 res hmem

theorem AsyncTtl.do_fetch_expiry {T : Type} (c : AsyncTtl T) :
    (c.do_fetch).1.expiry = c.expiry := by
  cases hf : c.fetching <;> simp [AsyncTtl.do_fetch, hf]

theorem AsyncTtl.get_data_expiry {T : Type} (c : AsyncTtl T) (now : Nat) :
    (c.get_data now).1.expiry = c.expiry := by
  by_cases h1 : (c.status now).fetch = true <;>
    by_cases h2 : (c.status now).fresh = true <;>
      simp [AsyncTtl.get_data, h1, h2, AsyncTtl.do_fetch_expiry]

/-- The freshness decision never consults the in-flight promise slot. -/
theorem AsyncTtl.status_fetching_irrel {T : Type} (c : AsyncTtl T)
    (f : Option Nat) (now : Nat) :
    ({ c with fetching := f } : AsyncTtl T).status now = c.status now := by
  cases c
  rfl

/-! ## Claim theorems -/

/-- C7: for every TtlCell and value `v`, if the validator accepts `v`
then `update v` stores `v`, resets the expiry to `now + max_age` and
returns true; if the validator rejects `v` then `update v` returns false
and leaves the entire cell state unchanged. -/
theorem C7_update_contract {T : Type} (c : AsyncTtl T) (v : Option T) (now : Nat) :
    (c.data_valid v = true →
      c.update v now =
        ({ c with data := v, expiry := some (now + c.max_age) }, true)) ∧
    (c.data_valid v = false → c.update v now = (c, false)) := by
  constructor <;> intro h <;>
    simp [AsyncTtl.update, AsyncTtl.refresh_expiry, h]

/-- A concrete, loaded cell used by several witnesses: data 3 valid
under the default (truthiness) validator, expiry 500. -/
def cellW : AsyncTtl Nat :=
  { max_age := 1000
    early_refresh := none
    stale_while_revalidate := none
    data := some 3
    expiry := some 500
    data_valid := defaultValid (fun n => n != 0)
    fetching := none
    fetch_count := 1
    warn_count := 0 }

/-- Witness for C7 at the concrete cell `cellW`: updating with the valid
value 5 at time 700 stores it and moves expiry to 1700; updating with
the invalid value 0 changes nothing and returns false. -/
theorem C7_update_contract_witness :
    (cellW.data_valid (some 5) = true ∧
      cellW.update (some 5) 700 =
        ({ cellW with data := some 5, expiry := some (700 + cellW.max_age) }, true)) ∧
    (cellW.data_valid (some 0) = false ∧ cellW.update (some 0) 700 = (cellW, false)) :=
  ⟨⟨rfl, (C7_update_contract cellW (some 5) 700).1 rfl⟩,
   ⟨rfl, (C7_update_contract cellW (some 0) 700).2 rfl⟩⟩

theorem DefferedParse.get_value_many_parsed {S P : Type} {d : DefferedParse S P}
    (h : d.parsed = some true) (n : Nat) :
    d.get_value_many n = (d, List.replicate n d.cached, 0) := by
  induction n with
  | zero => simp [DefferedParse.get_value_many]
  | succ k ih =>
    simp [DefferedParse.get_value_many, DefferedParse.get_value, h, ih,
      List.replicate_succ]

/-- C9: for every DefferedParse holder and raw assignment, the parser is
invoked exactly once across any positive number of subsequent reads (the
first read computes and caches, the rest return the cache), every read
returns the parsed value of the assigned raw input, and the raw form is
discarded (set back to undefined) by that first read. -/
theorem C9_deferred_parse_once {S P : Type} (d : DefferedParse S P) (r : S)
    (n : Nat) :
    (d.set_value r).get_value_many (n + 1) =
      ({ d with raw := none, cached := d.parser (some r), parsed := some true },
       List.replicate (n + 1) (d.parser (some r)), 1) := by
  have h1 : (d.set_value r).get_value =
      ({ d with raw := none, cached := d.parser (some r), parsed := some true },
       d.parser (some r), true) := by
    simp [DefferedParse.set_value, DefferedParse.get_value]
  have h2 : ({ d with raw := none, cached := d.parser (some r), parsed := some true } : DefferedParse S P).get_value_many n =
      ({ d with raw := none, cached := d.parser (some r), parsed := some true },
       List.replicate n (d.parser (some r)), 0) :=
    DefferedParse.get_value_many_parsed rfl n
  simp [DefferedParse.get_value_many, h1, h2, List.replicate_succ]

/-- C10: once a cell is loaded (`expiry` set) it stays loaded under every
operation; in particular `invalidate` sets `expiry` to the past value 0
instead of unsetting it, so the invalidated cell still reports loaded
and the next `get_data` falls through to the time-based (expired-data)
branches of `_status` rather than the never-loaded branch. -/
theorem C10_loaded_monotone {T : Type} (c : AsyncTtl T) (v : Option T) (now : Nat)
    (h : c.loaded = true) :
    (c.update v now).1.loaded = true ∧
    (c.refresh_expiry now).loaded = true ∧
    c.invalidate.loaded = true ∧
    c.invalidate.expiry = some 0 ∧
    c.invalidate.expiry ≠ none ∧
    (c.get_data now).1.loaded = true ∧
    (c.resolve_fetch v now).1.loaded = true ∧
    c.reject_fetch.loaded = true := by
  have h' : c.expiry.isSome = true := h
  have hupd : (c.update v now).1.loaded = true := by
    by_cases hv : c.data_valid v = true <;>
      simp [AsyncTtl.update, AsyncTtl.refresh_expiry, AsyncTtl.loaded, hv, h']
  refine ⟨hupd, ?_, ?_, rfl, ?_, ?_, ?_, ?_⟩
  · simp [AsyncTtl.refresh_expiry, AsyncTtl.loaded]
  · simp [AsyncTtl.invalidate, AsyncTtl.loaded]
  · simp [AsyncTtl.invalidate]
  · have he := AsyncTtl.get_data_expiry c now
    simp only [AsyncTtl.loaded]
    rw [he]; exact h'
  · by_cases hv : c.data_valid v = true <;>
      simp [AsyncTtl.resolve_fetch, AsyncTtl.update, AsyncTtl.refresh_expiry,
        AsyncTtl.loaded, hv, h']
  · simp [AsyncTtl.reject_fetch, AsyncTtl.loaded, h']

/-- Witness for C10 at the loaded concrete cell `cellW`. -/
theorem C10_loaded_monotone_witness :
    cellW.loaded = true ∧
    ((cellW.update (some 9) 600).1.loaded = true ∧
      (cellW.refresh_expiry 600).loaded = true ∧
      cellW.invalidate.loaded = true ∧
      cellW.invalidate.expiry = some 0 ∧
      cellW.invalidate.expiry ≠ none ∧
      (cellW.get_data 600).1.loaded = true ∧
      (cellW.resolve_fetch (some 9) 600).1.loaded = true ∧
      cellW.reject_fetch.loaded = true) :=
  ⟨rfl, C10_loaded_monotone cellW (some 9) 600 rfl⟩

/-- C2: single-flight.  From an idle cell whose status calls for a
fetch, the first `get_data` invokes the fetch closure exactly once and
installs the pending promise; every further `get_data` call arriving
while that fetch is pending leaves the cell (in particular the
invocation counter) unchanged, and every caller either attaches to or
awaits that same single pending promise — at most one in-flight fetch
exists at any time. -/
theorem C2_single_flight {T : Type} (c : AsyncTtl T) (now0 : Nat) (ts : List Nat)
    (h : c.fetching = none) (hst : (c.status now0).fetch = true) :
    (c.get_data now0).1.fetch_count = c.fetch_count + 1 ∧
    (c.get_data now0).1.fetching = some c.fetch_count ∧
    ((c.get_data now0).1.get_data_many ts).1 = (c.get_data now0).1 ∧
    ∀ res ∈ ((c.get_data now0).1.get_data_many ts).2,
      res = CallerResult.waitOn c.fetch_count ∨
      res = CallerResult.value (c.get_data now0).1.data (some c.fetch_count) ∨
      res = CallerResult.value (c.get_data now0).1.data none := by
  have hd := AsyncTtl.do_fetch_idle h
  have h1 : (c.get_data now0).1 =
      { c with fetching := some c.fetch_count, fetch_count := c.fetch_count + 1 } := by
    by_cases h2 : (c.status now0).fresh = true <;>
      simp [AsyncTtl.get_data, hst, h2, hd]
  have hp : (c.get_data now0).1.fetching = some c.fetch_count := by rw [h1]
  have hmany := AsyncTtl.get_data_many_pending hp ts
  exact ⟨by rw [h1], hp, hmany.1, hmany.2⟩

/-- A concrete idle, never-loaded cell: its status demands a blocking
fetch. -/
def cellIdle : AsyncTtl Nat :=
  { max_age := 1000
    early_refresh := none
    stale_while_revalidate := none
    data := none
    expiry := none
    data_valid := defaultValid (fun n => n != 0)
    fetching := none
    fetch_count := 0
    warn_count := 0 }

/-- Witness for C2: starting `cellIdle` at time 0 invokes the closure
once; two more calls at times 3 and 9 reuse the pending promise 0. -/
theorem C2_single_flight_witness :
    cellIdle.fetching = none ∧ (cellIdle.status 0).fetch = true ∧
    ((cellIdle.get_data 0).1.fetch_count = cellIdle.fetch_count + 1 ∧
      (cellIdle.get_data 0).1.fetching = some cellIdle.fetch_count ∧
      ((cellIdle.get_data 0).1.get_data_many [3, 9]).1 = (cellIdle.get_data 0).1 ∧
      ∀ res ∈ ((cellIdle.get_data 0).1.get_data_many [3, 9]).2,
        res = CallerResult.waitOn cellIdle.fetch_count ∨
        res = CallerResult.value (cellIdle.get_data 0).1.data (some cellIdle.fetch_count) ∨
        res = CallerResult.value (cellIdle.get_data 0).1.data none) :=
  ⟨rfl, rfl, C2_single_flight cellIdle 0 [3, 9] rfl rfl⟩

/-- C8: `invalidate` is idempotent (a second call leaves the exact same
state), forces `expiry` to the past value 0, keeps the stored data, and
for any positive time the next `get_data` on the invalidated idle cell
takes the blocking-fetch path with exactly one new fetch invocation.
The cell is assumed idle with no stale grace, as every cell the
constructor builds is (`_stale_while_revalidate` is never set). -/
theorem C8_invalidate_idempotent {T : Type} (c : AsyncTtl T) (now : Nat)
    (hl : c.loaded = true)
    (hswr : truthyOpt c.stale_while_revalidate = false)
    (hf : c.fetching = none) (hnow : 0 < now) :
    c.invalidate.invalidate = c.invalidate ∧
    c.invalidate.expiry = some 0 ∧
    c.invalidate.data = c.data ∧
    c.invalidate.status now = { fresh := false, fetch := true } ∧
    (c.invalidate.get_data now).2 = CallerResult.waitOn c.fetch_count ∧
    (c.invalidate.get_data now).1.fetch_count = c.fetch_count + 1 := by
  have h0 : ¬ now ≤ 0 := Nat.not_le.mpr hnow
  have hst : c.invalidate.status now = { fresh := false, fetch := true } := by
    by_cases hv : c.data_valid c.data = false <;>
      by_cases he : truthyOpt c.early_refresh = true <;>
        simp [AsyncTtl.status, AsyncTtl.invalidate, hswr, hv, he, h0]
  have hfi : c.invalidate.fetching = none := hf
  have hd := AsyncTtl.do_fetch_idle hfi
  refine ⟨rfl, rfl, rfl, hst, ?_, ?_⟩ <;>
    simp [AsyncTtl.get_data, hst, hd] <;> simp [AsyncTtl.invalidate]

/-- Witness for C8 at the loaded concrete cell `cellW` and time 600. -/
theorem C8_invalidate_idempotent_witness :
    (cellW.loaded = true ∧ truthyOpt cellW.stale_while_revalidate = false ∧
      cellW.fetching = none ∧ 0 < 600) ∧
    (cellW.invalidate.invalidate = cellW.invalidate ∧
      cellW.invalidate.expiry = some 0 ∧
      cellW.invalidate.data = cellW.data ∧
      cellW.invalidate.status 600 = { fresh := false, fetch := true } ∧
      (cellW.invalidate.get_data 600).2 = CallerResult.waitOn cellW.fetch_count ∧
      (cellW.invalidate.get_data 600).1.fetch_count = cellW.fetch_count + 1) :=
  ⟨⟨rfl, rfl, rfl, by decide⟩,
   C8_invalidate_idempotent cellW 600 rfl rfl rfl (by decide)⟩

/-- C3 counterexample: a never-loaded cell's caller awaits the fetch
promise; the fetch resolves with the invalid value 0, and the promise
then resolves with `none` (undefined) — an unset placeholder handed to
the caller as the data, and a value the cell's validator rejects. -/
theorem C3_counterexample :
    (cellIdle.get_data 50).2 = CallerResult.waitOn 0 ∧
    ((cellIdle.get_data 50).1.resolve_fetch (some 0) 100).2 = none ∧
    cellIdle.data_valid none = false ∧
    ((cellIdle.get_data 50).1.resolve_fetch (some 0) 100).1.data = none :=
  ⟨rfl, rfl, rfl, rfl⟩

/-- C3 amended: when a fetch resolves with a value the validator
rejects, the stored data and expiry are unchanged, the failure is
reported (one more `console.warn`, nothing thrown) and the in-flight
promise resolves with the previously stored data — the prior stale
value when one exists, and the unset placeholder (undefined) when none
does. -/
theorem C3_invalid_fetch_amended {T : Type} (c : AsyncTtl T) (v : Option T)
    (now : Nat) (h : c.data_valid v = false) :
    c.resolve_fetch v now =
      ({ c with fetching := none, warn_count := c.warn_count + 1 }, c.data) := by
  simp [AsyncTtl.resolve_fetch, AsyncTtl.update, h]

/-- Witness for C3's amended statement at `cellW` with the invalid
fetched value 0. -/
theorem C3_invalid_fetch_amended_witness :
    cellW.data_valid (some 0) = false ∧
    cellW.resolve_fetch (some 0) 700 =
      ({ cellW with fetching := none, warn_count := cellW.warn_count + 1 },
       cellW.data) :=
  ⟨rfl, C3_invalid_fetch_amended cellW (some 0) 700 rfl⟩

/-- A fully populated parameter record: even with every available
construction option supplied, no stale grace can be passed. -/
def paramsFull : AsyncTtlParams Nat :=
  { max_age := 1000
    early_refresh := some 10
    validator := some (defaultValid (fun n => n != 0))
    pre_load := some 7 }

/-- C5 counterexample: construction never yields a cell with a stale
grace — `_stale_while_revalidate` is not among `AsyncTtlParams` and the
constructor never assigns it, so no cell "constructed with
stale_grace = g" exists. -/
theorem C5_counterexample :
    (AsyncTtl.construct (fun n : Nat => n != 0) paramsFull 0).stale_while_revalidate
      = none ∧
    (AsyncTtl.construct (fun n : Nat => n != 0)
      { max_age := 1000 } 0).stale_while_revalidate = none :=
  ⟨rfl, rfl⟩

/-- C5 amended: the stale-grace field exists on the cell but is not a
construction option — every constructed cell has it unset — while the
stale-while-revalidate semantics does hold of the field itself: for an
idle cell carrying the field set to `g ≠ 0` with valid data and expiry
`e`, a call at `now` in `(e, e + g]` resolves immediately with the old
value while a background fetch starts, and a call at `now > e + g`
returns the pending fetch promise (blocks until the fetch resolves). -/
theorem C5_stale_grace_amended {T : Type} :
    (∀ (truthy : T → Bool) (p : AsyncTtlParams T) (now : Nat),
      (AsyncTtl.construct truthy p now).stale_while_revalidate = none) ∧
    (∀ (c : AsyncTtl T) (g e now : Nat),
      c.stale_while_revalidate = some g → g ≠ 0 →
      c.data_valid c.data = true → c.expiry = some e → c.fetching = none →
      ((e < now ∧ now ≤ e + g) →
        (c.get_data now).2 = CallerResult.value c.data (some c.fetch_count) ∧
        (c.get_data now).1.fetching = some c.fetch_count ∧
        (c.get_data now).1.fetch_count = c.fetch_count + 1) ∧
      (e + g < now →
        (c.get_data now).2 = CallerResult.waitOn c.fetch_count ∧
        (c.get_data now).1.fetch_count = c.fetch_count + 1)) := by
  constructor
  · intro truthy p now
    cases hp : p.pre_load with
    | none => simp [AsyncTtl.construct, AsyncTtl.do_fetch, hp]
    | some v =>
      by_cases hv : (p.validator.getD (defaultValid truthy)) (some v) = true <;>
        simp [AsyncTtl.construct, AsyncTtl.update, AsyncTtl.refresh_expiry,
          AsyncTtl.do_fetch, hp, hv]
  · intro c g e now hg hgnz hv he hf
    have hd := AsyncTtl.do_fetch_idle hf
    constructor
    · intro hin
      have h1 : ¬ (e + g < now) := by omega
      have hst : c.status now = { fresh := true, fetch := true } := by
        simp [AsyncTtl.status, he, hv, hg, truthyOpt, hgnz, h1, hin.1, hin.2]
      refine ⟨?_, ?_, ?_⟩ <;> simp [AsyncTtl.get_data, hst, hd]
    · intro hout
      have hst : c.status now = { fresh := false, fetch := true } := by
        simp [AsyncTtl.status, he, hv, hg, truthyOpt, hgnz, hout]
      refine ⟨?_, ?_⟩ <;> simp [AsyncTtl.get_data, hst, hd]

/-- A cell carrying the (unreachable-by-construction) stale grace of
500 around expiry 1000, used to witness C5's amended behavior. -/
def cellSwr : AsyncTtl Nat :=
  { max_age := 1000
    early_refresh := none
    stale_while_revalidate := some 500
    data := some 3
    expiry := some 1000
    data_valid := defaultValid (fun n => n != 0)
    fetching := none
    fetch_count := 0
    warn_count := 0 }

/-- Witness for C5's amended statement: at time 1200 (inside the grace
window) the old value is served with a background fetch; at time 1600
(past the window) the caller waits on the fetch. -/
theorem C5_stale_grace_amended_witness :
    ((AsyncTtl.construct (fun n : Nat => n != 0) paramsFull 3).stale_while_revalidate
        = none) ∧
    (cellSwr.stale_while_revalidate = some 500 ∧ (500 : Nat) ≠ 0 ∧
      cellSwr.data_valid cellSwr.data = true ∧ cellSwr.expiry = some 1000 ∧
      cellSwr.fetching = none ∧ (1000 < 1200 ∧ 1200 ≤ 1000 + 500) ∧
      1000 + 500 < 1600) ∧
    ((cellSwr.get_data 1200).2
        = CallerResult.value cellSwr.data (some cellSwr.fetch_count) ∧
      (cellSwr.get_data 1200).1.fetching = some cellSwr.fetch_count ∧
      (cellSwr.get_data 1200).1.fetch_count = cellSwr.fetch_count + 1) ∧
    ((cellSwr.get_data 1600).2 = CallerResult.waitOn cellSwr.fetch_count ∧
      (cellSwr.get_data 1600).1.fetch_count = cellSwr.fetch_count + 1) :=
  ⟨(@C5_stale_grace_amended Nat).1 (fun n => n != 0) paramsFull 3,
   ⟨rfl, by decide, rfl, rfl, rfl, by decide, by decide⟩,
   ((@C5_stale_grace_amended Nat).2 cellSwr 500 1000 1200 rfl (by decide) rfl rfl
      rfl).1 (by decide),
   ((@C5_stale_grace_amended Nat).2 cellSwr 500 1000 1600 rfl (by decide) rfl rfl
      rfl).2 (by decide)⟩

/-- A caller result counts as awaiting the fetch when it is the fetch
promise itself (immediate resolutions only attach a callback). -/
def CallerResult.awaits {T : Type} : CallerResult T → Bool
  | .waitOn _ => true
  | .value _ _ => false

/-- C6: when the in-flight fetch promise rejects, the rejection travels
along that single promise — and every caller awaiting the fetch holds
exactly that promise — while the cell's stored data and expiry are
untouched, so a later `get_data` whose status calls for a fetch retries
with a genuinely new fetch invocation. -/
theorem C6_fetch_failure {T : Type} (c : AsyncTtl T) (p : Nat) (now later : Nat)
    (h : c.fetching = some p) :
    c.reject_fetch.data = c.data ∧
    c.reject_fetch.expiry = c.expiry ∧
    c.reject_fetch.fetching = none ∧
    (∀ res : CallerResult T, (c.get_data now).2 = res → res.awaits = true →
      res = CallerResult.waitOn p) ∧
    ((c.status later).fetch = true →
      (c.reject_fetch.get_data later).1.fetching = some c.fetch_count ∧
      (c.reject_fetch.get_data later).1.fetch_count = c.fetch_count + 1) := by
  refine ⟨rfl, rfl, rfl, ?_, ?_⟩
  · intro res hres ha
    rcases AsyncTtl.get_data_pending_snd h now with h1 | h1 | h1 <;>
      rw [hres] at h1 <;> subst h1
    · rfl
    · simp [CallerResult.awaits] at ha
    · simp [CallerResult.awaits] at ha
  · intro hl2
    have hs : c.reject_fetch.status later = c.status later :=
      AsyncTtl.status_fetching_irrel c none later
    have hd := AsyncTtl.do_fetch_idle (show c.reject_fetch.fetching = none from rfl)
    by_cases hfr : (c.status later).fresh = true <;>
      simp [AsyncTtl.get_data, hs, hl2, hfr, hd] <;> simp [AsyncTtl.reject_fetch]

/-- A concrete loaded cell with a fetch in flight (promise 0). -/
def cellPend : AsyncTtl Nat :=
  { max_age := 1000
    early_refresh := none
    stale_while_revalidate := none
    data := some 3
    expiry := some 500
    data_valid := defaultValid (fun n => n != 0)
    fetching := some 0
    fetch_count := 1
    warn_count := 0 }

/-- Witness for C6 at `cellPend`: rejection leaves data/expiry alone and
a retry at time 2000 (expired) starts fetch invocation number 2. -/
theorem C6_fetch_failure_witness :
    cellPend.fetching = some 0 ∧ (cellPend.status 2000).fetch = true ∧
    (cellPend.reject_fetch.data = cellPend.data ∧
      cellPend.reject_fetch.expiry = cellPend.expiry ∧
      cellPend.reject_fetch.fetching = none ∧
      (cellPend.reject_fetch.get_data 2000).1.fetching = some cellPend.fetch_count ∧
      (cellPend.reject_fetch.get_data 2000).1.fetch_count
        = cellPend.fetch_count + 1) :=
  ⟨rfl, rfl,
    (C6_fetch_failure cellPend 0 600 2000 rfl).1,
    (C6_fetch_failure cellPend 0 600 2000 rfl).2.1,
    (C6_fetch_failure cellPend 0 600 2000 rfl).2.2.1,
    ((C6_fetch_failure cellPend 0 600 2000 rfl).2.2.2.2 rfl).1,
    ((C6_fetch_failure cellPend 0 600 2000 rfl).2.2.2.2 rfl).2⟩

/-- A valid, loaded cell configured with an early-refresh lead of 10
around expiry 1000, probed well before the lead window. -/
def cellEarly : AsyncTtl Nat :=
  { max_age := 1000
    early_refresh := some 10
    stale_while_revalidate := none
    data := some 5
    expiry := some 1000
    data_valid := defaultValid (fun n => n != 0)
    fetching := none
    fetch_count := 0
    warn_count := 0 }

/-- C4 evaluation: at time 500 — strictly before
`expiry - early_refresh_lead = 990` and outside any stale window — the
code still reports fresh-with-background-fetch and `get_data` invokes
the fetch closure, because `_status` compares the lead against the
absolute clock (`10 <= 500 && 500 <= 1000`) instead of against
`expiry - lead`. -/
theorem C4_early_refresh_eval :
    cellEarly.status 500 = { fresh := true, fetch := true } ∧
    500 < 1000 - 10 ∧
    (cellEarly.get_data 500).1.fetch_count = cellEarly.fetch_count + 1 ∧
    (cellEarly.get_data 500).1.fetching = some cellEarly.fetch_count := by
  refine ⟨by decide, by decide, by decide, by decide⟩

/-- A summary-tier cell cached for thread "t1". -/
def summaryCell : TtlThread :=
  { max_age := thread_ttl, fetch_tier := ThreadType.Slim, fetch_id := "t1" }

/-- The summary (slim) thread the cached cell's data resolves to. -/
def slimThread : MailThread := { thread_type := ThreadType.Slim, id := "t1" }

/-- C1 evaluation: on a key cached as summary-only, `get_full` returns
the data of the newly constructed complete-tier cell but stores the OLD
summary cell back under the key (`this.threads.set(id, cached)`), so the
cache still maps the key to the summary cell; on an absent key the
`set(id, undefined)` acts as a delete and the new cell is not stored
either. -/
theorem C1_get_full_promotion_eval :
    (Mailbox.get_full [("t1", summaryCell)] "t1" slimThread).2
        = GetFullResult.fromNew (Mailbox.new_full_ttl "t1") ∧
    lru_get (Mailbox.get_full [("t1", summaryCell)] "t1" slimThread).1 "t1"
        = some summaryCell ∧
    summaryCell ≠ Mailbox.new_full_ttl "t1" ∧
    (Mailbox.get_full ([] : List (String × TtlThread)) "t1" slimThread).1 = [] := by
  refine ⟨by decide, by decide, by decide, rfl⟩
